import Mathlib

/-!
Verification development for the Crossify token factory (Solana programs).

Shallow embedding of the two core components:
* the bonding-curve pricing engine
  (src/solana/token-factory/programs/token-factory/src/lib.rs), and
* the cross-chain message codec and dispatcher
  (src/solana/wormhole.rs, src/solana/cross_chain.rs).

Rust `u64`, `u32`, `u16`, `u8` values are modelled as `Nat` (with explicit
bounds or `% 2^w` where the code can overflow or cast), `i64` as `Int`,
byte buffers (`Vec<u8>`, `&[u8]`, `String` payload bytes) as `List Nat`
of bytes, `Pubkey` as `Nat`, and fallible functions as `Option`/`Except`.
-/

namespace Crossify

/-- The largest `u64` value: saturating arithmetic clamps here. -/
def U64MAX : Nat := 2 ^ 64 - 1

/-- Rust `u64::saturating_add`. -/
def satAdd (a b : Nat) : Nat := min (a + b) U64MAX

/-- Rust `u64::saturating_mul`. -/
def satMul (a b : Nat) : Nat := min (a * b) U64MAX

/-- Rust `u64::saturating_pow`: for unsigned integers `checked_pow`
returns `none` exactly when the mathematical power exceeds the maximum,
so `saturating_pow` is the clamped mathematical power. -/
def satPow (a n : Nat) : Nat := min (a ^ n) U64MAX

/-- The error enum of lib.rs (`TokenFactoryError`), extended with the two
dispatcher errors cross_chain.rs names on `crate::TokenFactoryError`, and
with `InvalidInstructionData` standing for the distinct Anchor
`ProgramError::InvalidInstructionData` that the parse functions of
wormhole.rs return on a Borsh decode failure. -/
inductive TokenFactoryError where
  | InvalidAuthority
  | CrossChainNotEnabled
  | UnsupportedChain
  | InvalidCurveType
  | InvalidReserveRatio
  | BondingCurveNotEnabled
  | InvalidMessagePayload
  | UnknownMessageType
  | InvalidInstructionData
deriving DecidableEq, Repr

/-- `BondingCurve` account data of lib.rs: `enabled: bool`,
`curve_type: u8` (0 Linear, 1 Exponential, 2 Bancor), `base_price: u64`,
`slope: u64`, `reserve_ratio: u16` (parts per 1000). -/
structure BondingCurve where
  enabled : Bool
  curve_type : Nat
  base_price : Nat
  slope : Nat
  reserve_ratio : Nat
deriving DecidableEq, Repr

/-- `calculate_linear_price` of lib.rs:
`base_price.saturating_add(slope.saturating_mul(supply))`, then
`.saturating_mul(amount)`. -/
def calculate_linear_price (supply amount base_price slope : Nat) : Nat :=
  let current_price := satAdd base_price (satMul slope supply)
  satMul current_price amount

/-- `calculate_exponential_price` of lib.rs:
`exponent = slope.saturating_mul(supply) / 10000`;
`current_price = base_price.saturating_add(base_price.saturating_mul(exponent) / 100)`;
result `current_price.saturating_mul(amount)`. -/
def calculate_exponential_price (supply amount base_price slope : Nat) : Nat :=
  let exponent := satMul slope supply / 10000
  let current_price := satAdd base_price (satMul base_price exponent / 100)
  satMul current_price amount

/-- `calculate_bancor_price` of lib.rs:
`ratio_factor = 1000u64.saturating_sub(reserve_ratio as u64) / 1000`
(`Nat` subtraction is truncated, matching `saturating_sub`);
`supply_factor = if supply > 1000 { supply / 1000 } else { 1 }`;
`current_price = base_price.saturating_mul(supply_factor.saturating_pow(ratio_factor as u32))`
(the `u32` cast is lossless since `ratio_factor ≤ 1`);
result `current_price.saturating_mul(amount)`. -/
def calculate_bancor_price (supply amount base_price reserve_ratio : Nat) : Nat :=
  let ratio_factor := (1000 - reserve_ratio) / 1000
  let supply_factor := if supply > 1000 then supply / 1000 else 1
  let current_price := satMul base_price (satPow supply_factor ratio_factor)
  satMul current_price amount

/-- `calculate_price` of lib.rs restricted to its pure content: the
`require!(enabled)` check and the `curve_type` dispatch over the three
helper functions. (The event emission and account plumbing carry no
decision content; the returned price is the value of the instruction.) -/
def calculate_price (curve : BondingCurve) (supply amount : Nat) :
    Except TokenFactoryError Nat :=
  if curve.enabled then
    match curve.curve_type with
    | 0 => .ok (calculate_linear_price supply amount curve.base_price curve.slope)
    | 1 => .ok (calculate_exponential_price supply amount curve.base_price curve.slope)
    | 2 => .ok (calculate_bancor_price supply amount curve.base_price curve.reserve_ratio)
    | _ => .error .InvalidCurveType
  else
    .error .BondingCurveNotEnabled

/-! ## Message codec (src/solana/wormhole.rs)

The payload structs derive `AnchorSerialize`/`AnchorDeserialize`, i.e. the
Borsh format: fixed-width integers little-endian, `String` as a `u32`
little-endian byte-length prefix (the length is cast `as u32`) followed by
the raw UTF-8 bytes, `i64` as 8 little-endian two's-complement bytes.
Strings are modelled by their byte lists (the UTF-8 well-formedness check
of Borsh `String` deserialization is abstracted away: the bytes written by
serializing a `String` are exactly its UTF-8 bytes, so it never fails on
data produced by the serializer). -/

/-- `wormhole::MSG_TYPE_TOKEN_CREATION`. -/
def MSG_TYPE_TOKEN_CREATION : Nat := 1
/-- `wormhole::MSG_TYPE_PRICE_UPDATE`. -/
def MSG_TYPE_PRICE_UPDATE : Nat := 2
/-- `wormhole::MSG_TYPE_LIQUIDITY_UPDATE`. -/
def MSG_TYPE_LIQUIDITY_UPDATE : Nat := 3

/-- `k` little-endian base-256 digits of `n` (the encoding of a `k`-byte
unsigned integer; values `≥ 256^k` are truncated mod `256^k`, matching a
Rust `as` cast to the narrower width). -/
def toLEBytes : Nat → Nat → List Nat
  | 0, _ => []
  | k + 1, n => n % 256 :: toLEBytes k (n / 256)

/-- Read back a little-endian byte list as a natural number. -/
def fromLEBytes (l : List Nat) : Nat := l.foldr (fun b acc => b + 256 * acc) 0

/-- Borsh encoding of a `u8`. -/
def encU8 (n : Nat) : List Nat := toLEBytes 1 n
/-- Borsh encoding of a `u16` (little-endian). -/
def encU16 (n : Nat) : List Nat := toLEBytes 2 n
/-- Borsh encoding of a `u32` (little-endian). -/
def encU32 (n : Nat) : List Nat := toLEBytes 4 n
/-- Borsh encoding of a `u64` (little-endian). -/
def encU64 (n : Nat) : List Nat := toLEBytes 8 n

/-- Borsh encoding of an `i64`: 8 little-endian bytes of the value's
two's-complement residue mod `2^64`. -/
def encI64 (t : Int) : List Nat := toLEBytes 8 (t % (2 ^ 64 : Int)).toNat

/-- Borsh encoding of a `String` (here: its UTF-8 byte list): byte length
as `u32` (`len as u32`), then the raw bytes. -/
def encStr (s : List Nat) : List Nat := encU32 s.length ++ s

/-- Take exactly `n` bytes from the front of the buffer, failing when the
buffer is shorter (Borsh reads fail on a truncated input). -/
def readBytes (n : Nat) (bs : List Nat) : Option (List Nat × List Nat) :=
  if n ≤ bs.length then some (bs.take n, bs.drop n) else none

/-- Read a `k`-byte little-endian unsigned integer. -/
def readUInt (k : Nat) (bs : List Nat) : Option (Nat × List Nat) :=
  match readBytes k bs with
  | some (h, t) => some (fromLEBytes h, t)
  | none => none

/-- Read an `i64`: 8 little-endian bytes, interpreted in two's complement. -/
def readI64 (bs : List Nat) : Option (Int × List Nat) :=
  match readBytes 8 bs with
  | some (h, t) =>
      let n := fromLEBytes h
      some (if n < 2 ^ 63 then (n : Int) else (n : Int) - 2 ^ 64, t)
  | none => none

/-- Read a Borsh `String` body: `u32` length, then that many raw bytes. -/
def readStr (bs : List Nat) : Option (List Nat × List Nat) :=
  match readUInt 4 bs with
  | some (len, t) => readBytes len t
  | none => none

/-- `TokenCreationPayload` of wormhole.rs (strings as UTF-8 byte lists). -/
structure TokenCreationPayload where
  token_id : Nat
  name : List Nat
  symbol : List Nat
  decimals : Nat
  metadata_uri : List Nat
  initial_supply : Nat
  curve_type : Nat
  base_price : Nat
  slope : Nat
  reserve_ratio : Nat
deriving DecidableEq, Repr

/-- `PriceUpdatePayload` of wormhole.rs. -/
structure PriceUpdatePayload where
  token_id : Nat
  current_price : Nat
  current_supply : Nat
  timestamp : Int
deriving DecidableEq, Repr

/-- `LiquidityUpdatePayload` of wormhole.rs. -/
structure LiquidityUpdatePayload where
  token_id : Nat
  liquidity_added : Nat
  liquidity_removed : Nat
  current_liquidity : Nat
  timestamp : Int
deriving DecidableEq, Repr

/-- A `TokenCreationPayload` whose fields fit their Rust types (string
byte-lengths below `2^32` so the Borsh `as u32` length cast is lossless). -/
def TokenCreationPayload.Valid (p : TokenCreationPayload) : Prop :=
  p.token_id < 2 ^ 64 ∧ p.name.length < 2 ^ 32 ∧ p.symbol.length < 2 ^ 32 ∧
  p.decimals < 2 ^ 8 ∧ p.metadata_uri.length < 2 ^ 32 ∧
  p.initial_supply < 2 ^ 64 ∧ p.curve_type < 2 ^ 8 ∧ p.base_price < 2 ^ 64 ∧
  p.slope < 2 ^ 64 ∧ p.reserve_ratio < 2 ^ 16

instance (p : TokenCreationPayload) : Decidable p.Valid := by
  unfold TokenCreationPayload.Valid; infer_instance

/-- A `PriceUpdatePayload` whose fields fit their Rust types. -/
def PriceUpdatePayload.Valid (p : PriceUpdatePayload) : Prop :=
  p.token_id < 2 ^ 64 ∧ p.current_price < 2 ^ 64 ∧ p.current_supply < 2 ^ 64 ∧
  -(2 ^ 63) ≤ p.timestamp ∧ p.timestamp < 2 ^ 63

instance (p : PriceUpdatePayload) : Decidable p.Valid := by
  unfold PriceUpdatePayload.Valid; infer_instance

/-- A `LiquidityUpdatePayload` whose fields fit their Rust types. -/
def LiquidityUpdatePayload.Valid (p : LiquidityUpdatePayload) : Prop :=
  p.token_id < 2 ^ 64 ∧ p.liquidity_added < 2 ^ 64 ∧
  p.liquidity_removed < 2 ^ 64 ∧ p.current_liquidity < 2 ^ 64 ∧
  -(2 ^ 63) ≤ p.timestamp ∧ p.timestamp < 2 ^ 63

instance (p : LiquidityUpdatePayload) : Decidable p.Valid := by
  unfold LiquidityUpdatePayload.Valid; infer_instance

/-- Borsh body of a `TokenCreationPayload` (`payload.try_to_vec()`):
fields in declaration order. -/
def encTokenCreationBody (p : TokenCreationPayload) : List Nat :=
  encU64 p.token_id ++ (encStr p.name ++ (encStr p.symbol ++
    (encU8 p.decimals ++ (encStr p.metadata_uri ++ (encU64 p.initial_supply ++
      (encU8 p.curve_type ++ (encU64 p.base_price ++ (encU64 p.slope ++
        encU16 p.reserve_ratio))))))))

/-- Borsh body of a `PriceUpdatePayload`. -/
def encPriceUpdateBody (p : PriceUpdatePayload) : List Nat :=
  encU64 p.token_id ++ (encU64 p.current_price ++ (encU64 p.current_supply ++
    encI64 p.timestamp))

/-- Borsh body of a `LiquidityUpdatePayload`. -/
def encLiquidityUpdateBody (p : LiquidityUpdatePayload) : List Nat :=
  encU64 p.token_id ++ (encU64 p.liquidity_added ++ (encU64 p.liquidity_removed ++
    (encU64 p.current_liquidity ++ encI64 p.timestamp)))

/-- `serialize_token_creation_message`: the tag byte pushed first, then the
Borsh body. -/
def serialize_token_creation_message (p : TokenCreationPayload) : List Nat :=
  MSG_TYPE_TOKEN_CREATION :: encTokenCreationBody p

/-- `serialize_price_update_message`. -/
def serialize_price_update_message (p : PriceUpdatePayload) : List Nat :=
  MSG_TYPE_PRICE_UPDATE :: encPriceUpdateBody p

/-- `serialize_liquidity_update_message`. -/
def serialize_liquidity_update_message (p : LiquidityUpdatePayload) : List Nat :=
  MSG_TYPE_LIQUIDITY_UPDATE :: encLiquidityUpdateBody p

/-- Borsh `deserialize` for `TokenCreationPayload`: read the fields in
declaration order, returning the value and the unread suffix. -/
def readTokenCreation (bs : List Nat) :
    Option (TokenCreationPayload × List Nat) :=
  match readUInt 8 bs with
  | none => none
  | some (token_id, bs) =>
  match readStr bs with
  | none => none
  | some (name, bs) =>
  match readStr bs with
  | none => none
  | some (symbol, bs) =>
  match readUInt 1 bs with
  | none => none
  | some (decimals, bs) =>
  match readStr bs with
  | none => none
  | some (metadata_uri, bs) =>
  match readUInt 8 bs with
  | none => none
  | some (initial_supply, bs) =>
  match readUInt 1 bs with
  | none => none
  | some (curve_type, bs) =>
  match readUInt 8 bs with
  | none => none
  | some (base_price, bs) =>
  match readUInt 8 bs with
  | none => none
  | some (slope, bs) =>
  match readUInt 2 bs with
  | none => none
  | some (reserve_ratio, bs) =>
    some (⟨token_id, name, symbol, decimals, metadata_uri, initial_supply,
           curve_type, base_price, slope, reserve_ratio⟩, bs)

/-- Borsh `deserialize` for `PriceUpdatePayload`. -/
def readPriceUpdate (bs : List Nat) : Option (PriceUpdatePayload × List Nat) :=
  match readUInt 8 bs with
  | none => none
  | some (token_id, bs) =>
  match readUInt 8 bs with
  | none => none
  | some (current_price, bs) =>
  match readUInt 8 bs with
  | none => none
  | some (current_supply, bs) =>
  match readI64 bs with
  | none => none
  | some (timestamp, bs) =>
    some (⟨token_id, current_price, current_supply, timestamp⟩, bs)

/-- Borsh `deserialize` for `LiquidityUpdatePayload`. -/
def readLiquidityUpdate (bs : List Nat) :
    Option (LiquidityUpdatePayload × List Nat) :=
  match readUInt 8 bs with
  | none => none
  | some (token_id, bs) =>
  match readUInt 8 bs with
  | none => none
  | some (liquidity_added, bs) =>
  match readUInt 8 bs with
  | none => none
  | some (liquidity_removed, bs) =>
  match readUInt 8 bs with
  | none => none
  | some (current_liquidity, bs) =>
  match readI64 bs with
  | none => none
  | some (timestamp, bs) =>
    some (⟨token_id, liquidity_added, liquidity_removed, current_liquidity,
           timestamp⟩, bs)

/-- `parse_token_creation_message` (`try_from_slice`): deserialize and
require that the whole slice was consumed. -/
def parse_token_creation_message (bs : List Nat) :
    Option TokenCreationPayload :=
  match readTokenCreation bs with
  | some (p, []) => some p
  | _ => none

/-- `parse_price_update_message`. -/
def parse_price_update_message (bs : List Nat) : Option PriceUpdatePayload :=
  match readPriceUpdate bs with
  | some (p, []) => some p
  | _ => none

/-- `parse_liquidity_update_message`. -/
def parse_liquidity_update_message (bs : List Nat) :
    Option LiquidityUpdatePayload :=
  match readLiquidityUpdate bs with
  | some (p, []) => some p
  | _ => none

/-- `deserialize_wormhole_message`: fail on an empty buffer
(`ProgramError::InvalidInstructionData`), else split the first byte as the
message type and return the rest as the payload. -/
def deserialize_wormhole_message (data : List Nat) :
    Except TokenFactoryError (Nat × List Nat) :=
  match data with
  | [] => .error .InvalidInstructionData
  | b :: rest => .ok (b, rest)

/-! ## Message dispatcher (src/solana/cross_chain.rs)

`process_message` is modelled as a pure function from the instruction
arguments to `Except TokenFactoryError CrossChainEvent`: a successful
dispatch returns the one event the handler `emit!`s, a failure returns the
error and emits no event. -/

/-- The three `#[event]` structs of cross_chain.rs, as one sum type.
`TokenCreatedFromRemoteEvent` carries `token_id`, `name`, `symbol`,
`source_chain`; `PriceUpdatedFromRemoteEvent` carries `token_id`,
`current_price`, `current_supply`, `source_chain`;
`LiquidityUpdatedFromRemoteEvent` carries `token_id`, `current_liquidity`,
`source_chain`. -/
inductive CrossChainEvent where
  | TokenCreatedFromRemote (token_id : Nat) (name symbol : List Nat)
      (source_chain : Nat)
  | PriceUpdatedFromRemote (token_id current_price current_supply
      source_chain : Nat)
  | LiquidityUpdatedFromRemote (token_id current_liquidity source_chain : Nat)
deriving DecidableEq, Repr

/-- `process_token_creation`: parse the body, emit
`TokenCreatedFromRemoteEvent` with the payload's `token_id`, `name`,
`symbol` and the supplied `source_chain`. -/
def process_token_creation (source_chain : Nat) (payload : List Nat) :
    Except TokenFactoryError CrossChainEvent :=
  match parse_token_creation_message payload with
  | some p => .ok (.TokenCreatedFromRemote p.token_id p.name p.symbol source_chain)
  | none => .error .InvalidInstructionData

/-- `process_price_update`: parse the body, emit
`PriceUpdatedFromRemoteEvent` with the payload's `token_id`,
`current_price`, `current_supply` and the supplied `source_chain`. -/
def process_price_update (source_chain : Nat) (payload : List Nat) :
    Except TokenFactoryError CrossChainEvent :=
  match parse_price_update_message payload with
  | some p => .ok (.PriceUpdatedFromRemote p.token_id p.current_price
      p.current_supply source_chain)
  | none => .error .InvalidInstructionData

/-- `process_liquidity_update`: parse the body, emit
`LiquidityUpdatedFromRemoteEvent` with the payload's `token_id`,
`current_liquidity` and the supplied `source_chain`. -/
def process_liquidity_update (source_chain : Nat) (payload : List Nat) :
    Except TokenFactoryError CrossChainEvent :=
  match parse_liquidity_update_message payload with
  | some p => .ok (.LiquidityUpdatedFromRemote p.token_id p.current_liquidity
      source_chain)
  | none => .error .InvalidInstructionData

/-- `ReceiveWormholeMessage::process_message`:
`require!(!payload.is_empty(), InvalidMessagePayload)`, then match the
first byte against the three message-type constants, passing
`payload[1..]` to the handler; any other tag fails with
`UnknownMessageType`. `source_address` is accepted but unused, as in the
source. -/
def process_message (source_chain : Nat) (source_address : List Nat)
    (payload : List Nat) : Except TokenFactoryError CrossChainEvent :=
  match payload with
  | [] => .error .InvalidMessagePayload
  | message_type :: rest =>
    if message_type = MSG_TYPE_TOKEN_CREATION then
      process_token_creation source_chain rest
    else if message_type = MSG_TYPE_PRICE_UPDATE then
      process_price_update source_chain rest
    else if message_type = MSG_TYPE_LIQUIDITY_UPDATE then
      process_liquidity_update source_chain rest
    else
      .error .UnknownMessageType

/-! ## Cross-chain configuration (lib.rs `enable_cross_chain`) -/

/-- `CrossChainInfo` of lib.rs: the Wormhole emitter `Pubkey` (modelled as
`Nat`) and the `Vec<u16>` of supported chain ids. -/
structure CrossChainInfo where
  wormhole_emitter : Nat
  supported_chains : List Nat
deriving DecidableEq, Repr

/-- The fields of the `TokenData` account that `enable_cross_chain` reads
or writes (`Pubkey`s as `Nat`). -/
structure TokenData where
  authority : Nat
  token_id : Nat
  cross_chain_enabled : Bool
  cross_chain_info : CrossChainInfo
  bonding_curve : BondingCurve
deriving DecidableEq, Repr

/-- `enable_cross_chain` of lib.rs:
`require!(token_data.authority == authority.key(), InvalidAuthority)`,
then set `cross_chain_enabled = true`, overwrite
`cross_chain_info.wormhole_emitter` with the argument, and overwrite
`cross_chain_info.supported_chains` wholesale with `chain_ids`. -/
def enable_cross_chain (token_data : TokenData) (authority : Nat)
    (wormhole_emitter : Nat) (chain_ids : List Nat) :
    Except TokenFactoryError TokenData :=
  if token_data.authority = authority then
    .ok { token_data with
          cross_chain_enabled := true,
          cross_chain_info :=
            { wormhole_emitter := wormhole_emitter,
              supported_chains := chain_ids } }
  else
    .error .InvalidAuthority

/-! ## Codec lemmas: each field reader consumes exactly its encoding -/

theorem toLEBytes_length (k n : Nat) : (toLEBytes k n).length = k := by
  induction k generalizing n with
  | zero => rfl
  | succ k ih => simp [toLEBytes, ih]

theorem fromLEBytes_cons (b : Nat) (l : List Nat) :
    fromLEBytes (b :: l) = b + 256 * fromLEBytes l := rfl

theorem fromLEBytes_toLEBytes (k n : Nat) :
    fromLEBytes (toLEBytes k n) = n % 256 ^ k := by
  induction k generalizing n with
  | zero => simp [toLEBytes, fromLEBytes, Nat.mod_one]
  | succ k ih =>
      rw [toLEBytes, fromLEBytes_cons, ih, pow_succ', Nat.mod_mul]

theorem readBytes_append (l rest : List Nat) :
    readBytes l.length (l ++ rest) = some (l, rest) := by
  rw [readBytes, if_pos]
  · rw [List.take_left, List.drop_left]
  · simp

theorem readBytes_exact (n : Nat) (l rest : List Nat) (h : l.length = n) :
    readBytes n (l ++ rest) = some (l, rest) := by
  subst h; exact readBytes_append l rest

theorem readUInt_enc (k n : Nat) (rest : List Nat) (h : n < 256 ^ k) :
    readUInt k (toLEBytes k n ++ rest) = some (n, rest) := by
  rw [readUInt, readBytes_exact k _ rest (toLEBytes_length k n)]
  dsimp only
  rw [fromLEBytes_toLEBytes, Nat.mod_eq_of_lt h]

theorem readU64_enc (n : Nat) (rest : List Nat) (h : n < 2 ^ 64) :
    readUInt 8 (encU64 n ++ rest) = some (n, rest) := by
  rw [encU64, readUInt_enc 8 n rest (by norm_num at h ⊢; omega)]

theorem readU16_enc (n : Nat) (rest : List Nat) (h : n < 2 ^ 16) :
    readUInt 2 (encU16 n ++ rest) = some (n, rest) := by
  rw [encU16, readUInt_enc 2 n rest (by norm_num at h ⊢; omega)]

theorem readU8_enc (n : Nat) (rest : List Nat) (h : n < 2 ^ 8) :
    readUInt 1 (encU8 n ++ rest) = some (n, rest) := by
  rw [encU8, readUInt_enc 1 n rest (by norm_num at h ⊢; omega)]

theorem readStr_enc (s rest : List Nat) (h : s.length < 2 ^ 32) :
    readStr (encStr s ++ rest) = some (s, rest) := by
  rw [encStr, List.append_assoc, readStr, encU32,
    readUInt_enc 4 s.length (s ++ rest) (by norm_num at h ⊢; omega)]
  dsimp only
  rw [readBytes_exact s.length s rest rfl]

theorem readI64_enc (t : Int) (rest : List Nat) (h1 : -(2 ^ 63) ≤ t)
    (h2 : t < 2 ^ 63) : readI64 (encI64 t ++ rest) = some (t, rest) := by
  have hmod : (t % (2 ^ 64 : Int)).toNat < 2 ^ 64 := by omega
  rw [readI64, encI64, readBytes_exact 8 _ rest (toLEBytes_length 8 _)]
  dsimp only
  rw [fromLEBytes_toLEBytes]
  have h256 : (256 : Nat) ^ 8 = 2 ^ 64 := by norm_num
  rw [h256, Nat.mod_eq_of_lt hmod]
  by_cases hneg : 0 ≤ t
  · have ht : t % (2 ^ 64 : Int) = t := by omega
    rw [if_pos (by omega)]
    have hc : ((t % (2 ^ 64 : Int)).toNat : Int) = t := by omega
    rw [hc]
  · have ht : t % (2 ^ 64 : Int) = t + 2 ^ 64 := by omega
    rw [if_neg (by omega)]
    have hc : ((t % (2 ^ 64 : Int)).toNat : Int) - 2 ^ 64 = t := by omega
    rw [hc]

/-- Reading a `PriceUpdatePayload` consumes exactly its Borsh body. -/
theorem readPriceUpdate_enc (p : PriceUpdatePayload) (hp : p.Valid)
    (rest : List Nat) :
    readPriceUpdate (encPriceUpdateBody p ++ rest) = some (p, rest) := by
  obtain ⟨h1, h2, h3, h4, h5⟩ := hp
  rw [encPriceUpdateBody]
  simp only [List.append_assoc]
  rw [readPriceUpdate, readU64_enc _ _ h1]
  dsimp only
  rw [readU64_enc _ _ h2]
  dsimp only
  rw [readU64_enc _ _ h3]
  dsimp only
  rw [readI64_enc _ _ h4 h5]

/-- Reading a `TokenCreationPayload` consumes exactly its Borsh body. -/
theorem readTokenCreation_enc (p : TokenCreationPayload) (hp : p.Valid)
    (rest : List Nat) :
    readTokenCreation (encTokenCreationBody p ++ rest) = some (p, rest) := by
  obtain ⟨h1, h2, h3, h4, h5, h6, h7, h8, h9, h10⟩ := hp
  rw [encTokenCreationBody]
  simp only [List.append_assoc]
  rw [readTokenCreation, readU64_enc _ _ h1]
  dsimp only
  rw [readStr_enc _ _ h2]
  dsimp only
  rw [readStr_enc _ _ h3]
  dsimp only
  rw [readU8_enc _ _ h4]
  dsimp only
  rw [readStr_enc _ _ h5]
  dsimp only
  rw [readU64_enc _ _ h6]
  dsimp only
  rw [readU8_enc _ _ h7]
  dsimp only
  rw [readU64_enc _ _ h8]
  dsimp only
  rw [readU64_enc _ _ h9]
  dsimp only
  rw [readU16_enc _ _ h10]

/-- Reading a `LiquidityUpdatePayload` consumes exactly its Borsh body. -/
theorem readLiquidityUpdate_enc (p : LiquidityUpdatePayload) (hp : p.Valid)
    (rest : List Nat) :
    readLiquidityUpdate (encLiquidityUpdateBody p ++ rest) = some (p, rest) := by
  obtain ⟨h1, h2, h3, h4, h5, h6⟩ := hp
  rw [encLiquidityUpdateBody]
  simp only [List.append_assoc]
  rw [readLiquidityUpdate, readU64_enc _ _ h1]
  dsimp only
  rw [readU64_enc _ _ h2]
  dsimp only
  rw [readU64_enc _ _ h3]
  dsimp only
  rw [readU64_enc _ _ h4]
  dsimp only
  rw [readI64_enc _ _ h5 h6]

/-- Parsing a full Borsh body succeeds and returns the payload
(`try_from_slice`: nothing may remain). -/
theorem parse_price_update_enc (p : PriceUpdatePayload) (hp : p.Valid) :
    parse_price_update_message (encPriceUpdateBody p) = some p := by
  rw [parse_price_update_message,
    show encPriceUpdateBody p = encPriceUpdateBody p ++ [] by simp,
    readPriceUpdate_enc p hp []]

/-- Parsing a full token-creation Borsh body succeeds. -/
theorem parse_token_creation_enc (p : TokenCreationPayload) (hp : p.Valid) :
    parse_token_creation_message (encTokenCreationBody p) = some p := by
  rw [parse_token_creation_message,
    show encTokenCreationBody p = encTokenCreationBody p ++ [] by simp,
    readTokenCreation_enc p hp []]

/-- Parsing a full liquidity-update Borsh body succeeds. -/
theorem parse_liquidity_update_enc (p : LiquidityUpdatePayload) (hp : p.Valid) :
    parse_liquidity_update_message (encLiquidityUpdateBody p) = some p := by
  rw [parse_liquidity_update_message,
    show encLiquidityUpdateBody p = encLiquidityUpdateBody p ++ [] by simp,
    readLiquidityUpdate_enc p hp []]

/-- A body with trailing garbage after a complete `PriceUpdatePayload`
encoding is rejected by `try_from_slice`. -/
theorem parse_price_update_overlong (p : PriceUpdatePayload) (hp : p.Valid)
    (extra : List Nat) (hx : extra ≠ []) :
    parse_price_update_message (encPriceUpdateBody p ++ extra) = none := by
  rw [parse_price_update_message, readPriceUpdate_enc p hp extra]
  match extra, hx with
  | b :: t, _ => rfl

/-- A body with trailing garbage after a complete `TokenCreationPayload`
encoding is rejected by `try_from_slice`. -/
theorem parse_token_creation_overlong (p : TokenCreationPayload)
    (hp : p.Valid) (extra : List Nat) (hx : extra ≠ []) :
    parse_token_creation_message (encTokenCreationBody p ++ extra) = none := by
  rw [parse_token_creation_message, readTokenCreation_enc p hp extra]
  match extra, hx with
  | b :: t, _ => rfl

/-- A body with trailing garbage after a complete `LiquidityUpdatePayload`
encoding is rejected by `try_from_slice`. -/
theorem parse_liquidity_update_overlong (p : LiquidityUpdatePayload)
    (hp : p.Valid) (extra : List Nat) (hx : extra ≠ []) :
    parse_liquidity_update_message (encLiquidityUpdateBody p ++ extra) = none := by
  rw [parse_liquidity_update_message, readLiquidityUpdate_enc p hp extra]
  match extra, hx with
  | b :: t, _ => rfl

/-- Any saturating multiplication result is at most `U64MAX`. -/
theorem satMul_le (a b : Nat) : satMul a b ≤ U64MAX := min_le_right _ _

/-! ## Claim theorems -/

/-- C2: for every supply, amount, base_price and reserve_ratio, the
BancorApprox price is `unit_price * amount` with
`ratio_factor = (1000 - reserve_ratio) / 1000` (integer division),
`supply_factor = supply / 1000` if `supply > 1000` else `1`, and
`unit_price = base_price * supply_factor ^ ratio_factor`, all saturating;
for `base_price=100, reserve_ratio=800, supply=5000, amount=3` the result
is `300`; and for every `reserve_ratio` strictly between 0 and 1000 the
ratio factor is 0, so the unit price collapses to `base_price`. -/
theorem C2_bancor_price :
    (∀ b sl rr s a, calculate_price ⟨true, 2, b, sl, rr⟩ s a =
      .ok (satMul (satMul b (satPow (if s > 1000 then s / 1000 else 1)
        ((1000 - rr) / 1000))) a)) ∧
    calculate_bancor_price 5000 3 100 800 = 300 ∧
    (∀ rr, 0 < rr → rr < 1000 → (1000 - rr) / 1000 = 0) ∧
    (∀ b sl rr s a, b ≤ U64MAX → 0 < rr → rr < 1000 →
      calculate_price ⟨true, 2, b, sl, rr⟩ s a = .ok (satMul b a)) := by
  refine ⟨fun b sl rr s a => rfl, by decide, fun rr h1 h2 => by omega,
    fun b sl rr s a hb h1 h2 => ?_⟩
  show Except.ok (calculate_bancor_price s a b rr) = _
  rw [calculate_bancor_price]
  have hrf : (1000 - rr) / 1000 = 0 := by omega
  rw [hrf]
  have hpow : ∀ x : Nat, satPow x 0 = 1 := by
    intro x; rw [satPow, pow_zero]; decide
  rw [hpow]
  have hb1 : satMul b 1 = b := by
    rw [satMul, mul_one]; exact min_eq_left hb
  rw [hb1]

/-- Witness for C2 at `base_price=100, reserve_ratio=800, supply=5000,
amount=3`. -/
theorem C2_bancor_price_witness :
    (1000 - 800) / 1000 = 0 ∧
    calculate_price ⟨true, 2, 100, 0, 800⟩ 5000 3 = .ok (satMul 100 3) :=
  ⟨C2_bancor_price.2.2.1 800 (by decide) (by decide),
   C2_bancor_price.2.2.2 100 0 800 5000 3 (by decide) (by decide) (by decide)⟩

/-- C3: with an enabled curve, `calculate_price` is total (the embedding
is a total function; every division is by the nonzero constants 10000,
100 or 1000) and any priced result is at most the `u64` maximum, because
the last operation of each of the three formulas is a saturating
multiplication; the only non-`ok` outcome is the `InvalidCurveType`
rejection of an unknown `curve_type`. -/
theorem C3_price_saturates :
    ∀ (c : BondingCurve) (s a : Nat), c.enabled = true →
      calculate_price c s a = .error .InvalidCurveType ∨
      ∃ p, calculate_price c s a = .ok p ∧ p ≤ U64MAX := by
  rintro ⟨e, ct, bp, sl, rr⟩ s a h
  subst h
  match ct with
  | 0 => exact .inr ⟨_, rfl, satMul_le _ _⟩
  | 1 => exact .inr ⟨_, rfl, satMul_le _ _⟩
  | 2 => exact .inr ⟨_, rfl, satMul_le _ _⟩
  | n + 3 => exact .inl rfl

/-- Witness for C3 at the boundary input
`supply = amount = u64::MAX`, `curve_type = 1`. -/
theorem C3_price_saturates_witness :
    calculate_price ⟨true, 1, 2 ^ 64 - 1, 2 ^ 64 - 1, 1000⟩ (2 ^ 64 - 1)
        (2 ^ 64 - 1) = .error .InvalidCurveType ∨
    ∃ p, calculate_price ⟨true, 1, 2 ^ 64 - 1, 2 ^ 64 - 1, 1000⟩ (2 ^ 64 - 1)
        (2 ^ 64 - 1) = .ok p ∧ p ≤ U64MAX :=
  C3_price_saturates ⟨true, 1, 2 ^ 64 - 1, 2 ^ 64 - 1, 1000⟩ (2 ^ 64 - 1)
    (2 ^ 64 - 1) rfl

/-- C4: with `enabled == false`, `calculate_price` fails with
`BondingCurveNotEnabled` whatever the other fields and arguments are. -/
theorem C4_not_enabled :
    ∀ (c : BondingCurve) (s a : Nat), c.enabled = false →
      calculate_price c s a = .error .BondingCurveNotEnabled := by
  intro c s a h
  rw [calculate_price, h]
  rfl

/-- Witness for C4 at a disabled curve with nonzero other fields. -/
theorem C4_not_enabled_witness :
    calculate_price ⟨false, 7, 100, 5, 900⟩ 10 3 =
      .error .BondingCurveNotEnabled :=
  C4_not_enabled ⟨false, 7, 100, 5, 900⟩ 10 3 rfl

/-- C6: the Linear price is `(base_price + slope * supply) * amount` with
saturating arithmetic; at `base_price=100, slope=1, supply=10, amount=5`
the unit price is 110 and the total price 550. -/
theorem C6_linear_price :
    (∀ b sl rr s a, calculate_price ⟨true, 0, b, sl, rr⟩ s a =
      .ok (satMul (satAdd b (satMul sl s)) a)) ∧
    satAdd 100 (satMul 1 10) = 110 ∧
    calculate_linear_price 10 5 100 1 = 550 :=
  ⟨fun b sl rr s a => rfl, by decide, by decide⟩

/-- C7: the Exponential price is `unit_price * amount` with
`exponent = (slope * supply) / 10000` and
`unit_price = base_price + (base_price * exponent) / 100`, saturating
multiplications and additions, integer division; at
`base_price=100, slope=500, supply=20, amount=2` the exponent is 1, the
unit price 101 and the total price 202. -/
theorem C7_exponential_price :
    (∀ b sl rr s a, calculate_price ⟨true, 1, b, sl, rr⟩ s a =
      .ok (satMul (satAdd b (satMul b (satMul sl s / 10000) / 100)) a)) ∧
    satMul 500 20 / 10000 = 1 ∧
    satAdd 100 (satMul 100 1 / 100) = 101 ∧
    calculate_exponential_price 20 2 100 500 = 202 :=
  ⟨fun b sl rr s a => rfl, by decide, by decide, by decide⟩

/-- C1: for every valid payload of each of the three variants, serializing
(tag byte, then Borsh fields) and then decoding (splitting the first byte
as the tag, parsing the remainder with the matching parse function)
returns exactly the original payload. -/
theorem C1_codec_roundtrip :
    (∀ p : TokenCreationPayload, p.Valid →
      deserialize_wormhole_message (serialize_token_creation_message p) =
        .ok (MSG_TYPE_TOKEN_CREATION, encTokenCreationBody p) ∧
      parse_token_creation_message (encTokenCreationBody p) = some p) ∧
    (∀ p : PriceUpdatePayload, p.Valid →
      deserialize_wormhole_message (serialize_price_update_message p) =
        .ok (MSG_TYPE_PRICE_UPDATE, encPriceUpdateBody p) ∧
      parse_price_update_message (encPriceUpdateBody p) = some p) ∧
    (∀ p : LiquidityUpdatePayload, p.Valid →
      deserialize_wormhole_message (serialize_liquidity_update_message p) =
        .ok (MSG_TYPE_LIQUIDITY_UPDATE, encLiquidityUpdateBody p) ∧
      parse_liquidity_update_message (encLiquidityUpdateBody p) = some p) :=
  ⟨fun p hp => ⟨rfl, parse_token_creation_enc p hp⟩,
   fun p hp => ⟨rfl, parse_price_update_enc p hp⟩,
   fun p hp => ⟨rfl, parse_liquidity_update_enc p hp⟩⟩

/-- A concrete `TokenCreationPayload` used to witness C1. -/
def tcSample : TokenCreationPayload :=
  ⟨5, [67, 114], [67, 82], 9, [117, 114, 105], 1000000, 0, 100, 1, 500⟩

/-- A concrete `PriceUpdatePayload` used to witness C1. -/
def puSample : PriceUpdatePayload := ⟨7, 42, 1000, 1700000000⟩

/-- A concrete `LiquidityUpdatePayload` used to witness C1. -/
def luSample : LiquidityUpdatePayload := ⟨3, 10, 2, 500, 1700000000⟩

/-- Witness for C1 at one concrete payload per variant. -/
theorem C1_codec_roundtrip_witness :
    parse_token_creation_message (encTokenCreationBody tcSample) =
      some tcSample ∧
    parse_price_update_message (encPriceUpdateBody puSample) = some puSample ∧
    parse_liquidity_update_message (encLiquidityUpdateBody luSample) =
      some luSample :=
  ⟨(C1_codec_roundtrip.1 tcSample (by decide)).2,
   (C1_codec_roundtrip.2.1 puSample (by decide)).2,
   (C1_codec_roundtrip.2.2 luSample (by decide)).2⟩

/-- C5: `process_message` on an empty payload fails with
`InvalidMessagePayload`, and on a nonempty payload whose first byte is
outside `{1,2,3}` fails with `UnknownMessageType`; in the embedding a
`.error` result is exactly a run that emits no event. -/
theorem C5_dispatch_rejections :
    ∀ (source_chain : Nat) (source_address : List Nat),
      process_message source_chain source_address [] =
        .error .InvalidMessagePayload ∧
      ∀ b rest, b ≠ 1 → b ≠ 2 → b ≠ 3 →
        process_message source_chain source_address (b :: rest) =
          .error .UnknownMessageType := by
  intro sc sa
  refine ⟨rfl, fun b rest h1 h2 h3 => ?_⟩
  rw [process_message]
  rw [if_neg (by simpa [MSG_TYPE_TOKEN_CREATION] using h1),
    if_neg (by simpa [MSG_TYPE_PRICE_UPDATE] using h2),
    if_neg (by simpa [MSG_TYPE_LIQUIDITY_UPDATE] using h3)]

/-- Witness for C5: empty buffer, and the out-of-range tags 0 and 4. -/
theorem C5_dispatch_rejections_witness :
    process_message 1 [9] [] = .error .InvalidMessagePayload ∧
    process_message 1 [9] [0, 7] = .error .UnknownMessageType ∧
    process_message 1 [9] [4] = .error .UnknownMessageType :=
  ⟨(C5_dispatch_rejections 1 [9]).1,
   (C5_dispatch_rejections 1 [9]).2 0 [7] (by decide) (by decide) (by decide),
   (C5_dispatch_rejections 1 [9]).2 4 [] (by decide) (by decide) (by decide)⟩

/-- Two concrete `PriceUpdatePayload`s differing only in `timestamp`,
used for the C8 counterexample. -/
def puTsA : PriceUpdatePayload := ⟨7, 42, 1000, 1700000000⟩

/-- The second payload of the C8 counterexample pair. -/
def puTsB : PriceUpdatePayload := ⟨7, 42, 1000, 0⟩

/-- C8 counterexample: dispatching tag 2 with the valid body for
`token_id=7, current_price=42, current_supply=1000,
timestamp=1700000000` yields an event that does NOT carry the payload's
`timestamp`: `PriceUpdatedFromRemoteEvent` has no timestamp field, and
two bodies differing only in the timestamp produce the same event. -/
theorem C8_no_timestamp_counterexample :
    puTsA.timestamp ≠ puTsB.timestamp ∧
    process_message 2 [9] (MSG_TYPE_PRICE_UPDATE :: encPriceUpdateBody puTsA) =
      process_message 2 [9]
        (MSG_TYPE_PRICE_UPDATE :: encPriceUpdateBody puTsB) ∧
    process_message 2 [9] (MSG_TYPE_PRICE_UPDATE :: encPriceUpdateBody puTsA) =
      .ok (.PriceUpdatedFromRemote 7 42 1000 2) :=
  ⟨by decide, rfl, rfl⟩

/-- C8 as amended: dispatching tag 2 with a valid `PriceUpdatePayload`
body succeeds and emits a `PriceUpdatedFromRemote` event carrying the
payload's `token_id`, `current_price` and `current_supply` (but not its
`timestamp`, which the event type does not hold) plus the supplied
`source_chain`. -/
theorem C8_price_update_dispatch :
    ∀ (source_chain : Nat) (source_address : List Nat)
      (p : PriceUpdatePayload), p.Valid →
      process_message source_chain source_address
          (MSG_TYPE_PRICE_UPDATE :: encPriceUpdateBody p) =
        .ok (.PriceUpdatedFromRemote p.token_id p.current_price
          p.current_supply source_chain) := by
  intro sc sa p hp
  rw [process_message, if_neg (by decide), if_pos rfl,
    process_price_update, parse_price_update_enc p hp]

/-- Witness for the amended C8 at the claim's concrete payload. -/
theorem C8_price_update_dispatch_witness :
    process_message 2 [9] (MSG_TYPE_PRICE_UPDATE :: encPriceUpdateBody puTsA) =
      .ok (.PriceUpdatedFromRemote 7 42 1000 2) :=
  C8_price_update_dispatch 2 [9] puTsA (by decide)

/-- A concrete `TokenData` with cross-chain already enabled and chain 2
supported, for the C9 counterexample. -/
def tdSample : TokenData :=
  { authority := 11, token_id := 0, cross_chain_enabled := true,
    cross_chain_info := { wormhole_emitter := 9, supported_chains := [2] },
    bonding_curve := ⟨false, 0, 0, 0, 0⟩ }

/-- C9 counterexample: `enable_cross_chain` overwrites `supported_chains`
wholesale with the new `chain_ids` — re-invoking it on `tdSample` (which
supports chain 2) with `chain_ids = [4]` removes chain 2, so the set of
supported chain ids is not append-only. -/
theorem C9_overwrite_counterexample :
    (2 : Nat) ∈ tdSample.cross_chain_info.supported_chains ∧
    enable_cross_chain tdSample 11 9 [4] =
      .ok { tdSample with
            cross_chain_enabled := true,
            cross_chain_info :=
              { wormhole_emitter := 9, supported_chains := [4] } } ∧
    (2 : Nat) ∉ ({ tdSample with
            cross_chain_enabled := true,
            cross_chain_info :=
              { wormhole_emitter := 9, supported_chains := [4] } } :
          TokenData).cross_chain_info.supported_chains :=
  ⟨by decide, rfl, by decide⟩

/-- C9 as amended: re-invoking `enable_cross_chain` with the correct
authority replaces `cross_chain_info` wholesale — `supported_chains`
becomes exactly the supplied `chain_ids`, so a previously supported chain
id survives only if it is in the new list (there is no append and no
separate removal operation). -/
theorem C9_enable_cross_chain_replaces :
    ∀ (td : TokenData) (auth em : Nat) (chain_ids : List Nat),
      td.authority = auth →
      enable_cross_chain td auth em chain_ids =
        .ok { td with
              cross_chain_enabled := true,
              cross_chain_info :=
                { wormhole_emitter := em, supported_chains := chain_ids } } := by
  intro td auth em cids h
  rw [enable_cross_chain, if_pos h]

/-- Witness for the amended C9 at `tdSample`. -/
theorem C9_enable_cross_chain_replaces_witness :
    enable_cross_chain tdSample 11 9 [4] =
      .ok { tdSample with
            cross_chain_enabled := true,
            cross_chain_info :=
              { wormhole_emitter := 9, supported_chains := [4] } } :=
  C9_enable_cross_chain_replaces tdSample 11 9 [4] rfl

/-- C10: for each variant, a body consisting of a complete valid encoding
followed by at least one extra byte is rejected by the parse function
(Borsh `try_from_slice` demands the whole slice be consumed), and
dispatching such an over-long body fails with the decode error
(`ProgramError::InvalidInstructionData`), emitting no event. -/
theorem C10_overlong_rejected :
    ∀ (extra : List Nat), extra ≠ [] →
      (∀ p : TokenCreationPayload, p.Valid →
        parse_token_creation_message (encTokenCreationBody p ++ extra) =
          none ∧
        ∀ sc sa, process_message sc sa
            (MSG_TYPE_TOKEN_CREATION :: (encTokenCreationBody p ++ extra)) =
          .error .InvalidInstructionData) ∧
      (∀ p : PriceUpdatePayload, p.Valid →
        parse_price_update_message (encPriceUpdateBody p ++ extra) = none ∧
        ∀ sc sa, process_message sc sa
            (MSG_TYPE_PRICE_UPDATE :: (encPriceUpdateBody p ++ extra)) =
          .error .InvalidInstructionData) ∧
      (∀ p : LiquidityUpdatePayload, p.Valid →
        parse_liquidity_update_message (encLiquidityUpdateBody p ++ extra) =
          none ∧
        ∀ sc sa, process_message sc sa
            (MSG_TYPE_LIQUIDITY_UPDATE ::
              (encLiquidityUpdateBody p ++ extra)) =
          .error .InvalidInstructionData) := by
  intro extra hx
  refine ⟨fun p hp => ⟨parse_token_creation_overlong p hp extra hx,
      fun sc sa => ?_⟩,
    fun p hp => ⟨parse_price_update_overlong p hp extra hx, fun sc sa => ?_⟩,
    fun p hp => ⟨parse_liquidity_update_overlong p hp extra hx,
      fun sc sa => ?_⟩⟩
  · rw [process_message, if_pos rfl, process_token_creation,
      parse_token_creation_overlong p hp extra hx]
  · rw [process_message, if_neg (by decide), if_pos rfl,
      process_price_update, parse_price_update_overlong p hp extra hx]
  · rw [process_message, if_neg (by decide), if_neg (by decide), if_pos rfl,
      process_liquidity_update,
      parse_liquidity_update_overlong p hp extra hx]

/-- Witness for C10: one extra zero byte after each sample encoding. -/
theorem C10_overlong_rejected_witness :
    parse_price_update_message (encPriceUpdateBody puSample ++ [0]) = none ∧
    parse_token_creation_message (encTokenCreationBody tcSample ++ [0]) =
      none ∧
    parse_liquidity_update_message (encLiquidityUpdateBody luSample ++ [0]) =
      none ∧
    process_message 1 [9]
        (MSG_TYPE_PRICE_UPDATE :: (encPriceUpdateBody puSample ++ [0])) =
      .error .InvalidInstructionData :=
  ⟨((C10_overlong_rejected [0] (by decide)).2.1 puSample (by decide)).1,
   ((C10_overlong_rejected [0] (by decide)).1 tcSample (by decide)).1,
   ((C10_overlong_rejected [0] (by decide)).2.2 luSample (by decide)).1,
   ((C10_overlong_rejected [0] (by decide)).2.1 puSample (by decide)).2 1 [9]⟩

end Crossify
